import Mathlib

/-!
Verification of the query-orchestration pipeline.

Shallow embedding of `src/orchestrator/app.py` (the `call_agent` helper,
the symbol-extraction block, and the `process_query` endpoint), over a
JSON-like value type.  External collaborator services are modelled as
oracles: one `HttpOutcome` per collaborator call, describing what the
HTTP exchange would produce.  Raised `HTTPException`s are modelled as the
`Except.error` branch of `Except HTTPException α`.
-/

set_option autoImplicit false

namespace Orchestrator

/-- JSON values, as produced by `response.json()`.  Objects are
association lists of fields in insertion order (Python dicts preserve
insertion order and the maps built by the orchestrator have distinct
keys). -/
inductive JVal where
  | null
  | bool (b : Bool)
  | num (n : Int)
  | str (s : String)
  | arr (elems : List JVal)
  | obj (fields : List (String × JVal))
deriving Repr

/-- Python dict lookup `d.get(k)`: `some` of the first binding of `k`,
`none` when the key is absent.  On non-objects there is no `.get`
attribute; callers of this function match on the object case first. -/
def JVal.getField : JVal → String → Option JVal
  | .obj fields, k => fields.lookup k
  | _, _ => none

/-- Python dict lookup with default, `d.get(k, default)`. -/
def JVal.getD (v : JVal) (k : String) (d : JVal) : JVal :=
  (v.getField k).getD d

/-- Models `fastapi.HTTPException(status_code=..., detail=...)`. -/
structure HTTPException where
  status_code : Nat
  detail : String
deriving Repr, DecidableEq

/-- What the underlying HTTP exchange of one collaborator call does:
either `httpx` raises a transport-level `RequestError` (connection,
timeout, ...), or a response arrives with a status code, a body text and
its parsed JSON value.  (Bodies are modelled as already-parsed JSON; the
orchestrator only ever reads `response.text` on rejected statuses and
`response.json()` on accepted ones.) -/
inductive HttpOutcome where
  | transportError (cause : String)
  | response (status : Nat) (text : String) (body : JVal)
deriving Repr

/-- Models `call_agent` (src/orchestrator/app.py lines 48-59): issue the
request; `response.raise_for_status()` raises `httpx.HTTPStatusError`
for any 4xx/5xx status (400-599), converted to
`HTTPException(status, "Agent error: " + response.text)`;
`httpx.RequestError` is converted to
`HTTPException(503, "Agent call failed: " + cause)`; otherwise the
parsed body is returned.  `Except.error` models the `raise`. -/
def call_agent : HttpOutcome → Except HTTPException JVal
  | .transportError cause => .error ⟨503, "Agent call failed: " ++ cause⟩
  | .response status text body =>
    if 400 ≤ status ∧ status ≤ 599 then
      .error ⟨status, "Agent error: " ++ text⟩
    else
      .ok body

/-- Holds exactly when `call_agent` raises (transport error or rejected
HTTP status), i.e. when the exception escapes `call_agent` to be caught
or gathered by the caller. -/
def callFails (o : HttpOutcome) : Bool :=
  match call_agent o with
  | .error _ => true
  | .ok _ => false

/-- The `COMPANY_NAME_TO_SYMBOL_MAP` table (src/orchestrator/app.py lines 80-125),
in source order. -/
def COMPANY_NAME_TO_SYMBOL_MAP : List (String × String) :=
  [("GOOGLE", "GOOGL"),
   ("ALPHABET", "GOOGL"),
   ("APPLE", "AAPL"),
   ("MICROSOFT", "MSFT"),
   ("AMAZON", "AMZN"),
   ("TESLA", "TSLA"),
   ("NVIDIA", "NVDA"),
   ("META", "META"),
   ("FACEBOOK", "META"),
   ("BERKSHIRE HATHAWAY", "BRK-B"),
   ("JPMORGAN CHASE", "JPM"),
   ("JPMORGAN", "JPM"),
   ("JOHNSON & JOHNSON", "JNJ"),
   ("JOHNSON AND JOHNSON", "JNJ"),
   ("VISA", "V"),
   ("MASTERCARD", "MA"),
   ("PROCTER & GAMBLE", "PG"),
   ("PROCTER AND GAMBLE", "PG"),
   ("NETFLIX", "NFLX"),
   ("SALESFORCE", "CRM"),
   ("ADOBE", "ADBE"),
   ("INTEL", "INTC"),
   ("CISCO", "CSCO"),
   ("ORACLE", "ORCL"),
   ("WALMART", "WMT"),
   ("BANK OF AMERICA", "BAC"),
   ("EXXONMOBIL", "XOM"),
   ("EXXON", "XOM"),
   ("UNITEDHEALTH", "UNH"),
   ("UNITED HEALTH", "UNH"),
   ("HOME DEPOT", "HD"),
   ("DISNEY", "DIS"),
   ("WALT DISNEY", "DIS"),
   ("CHEVRON", "CVX"),
   ("COCA-COLA", "KO"),
   ("COCA COLA", "KO"),
   ("PEPSICO", "PEP"),
   ("MCDONALDS", "MCD"),
   ("VERIZON", "VZ"),
   ("AT&T", "T"),
   ("ATT", "T"),
   ("PFIZER", "PFE"),
   ("MERCK", "MRK")]

/-- Python `str.upper()` (the queries under consideration are ASCII, so
mapping `Char.toUpper` over the characters is exact). -/
def toUpperStr (s : String) : String :=
  ⟨s.data.map Char.toUpper⟩

/-- Python `needle in haystack` on strings: contiguous substring test. -/
def strContains (haystack needle : String) : Bool :=
  decide (needle.toList <:+: haystack.toList)

/-- A regex word character (`\w`): letter, digit or underscore (the
queries under consideration are ASCII). -/
def isWordChar (c : Char) : Bool :=
  c.isAlphanum || c = '_'

/-- Splits a character list into its maximal runs of word characters
(the regex "words", i.e. the stretches delimited by `\b` at both
ends). `acc` holds the current run, reversed. -/
def wordRuns : List Char → List Char → List (List Char)
  | [], acc => if acc.isEmpty then [] else [acc.reverse]
  | c :: cs, acc =>
    if isWordChar c then
      wordRuns cs (c :: acc)
    else if acc.isEmpty then
      wordRuns cs []
    else
      acc.reverse :: wordRuns cs []

/-- A run that the pattern `\b([A-Z]{1,5})\b` matches: 1 to 5 uppercase
ASCII letters. -/
def isTickerRun (run : List Char) : Bool :=
  run.all (fun c => 'A' ≤ c && c ≤ 'Z') && 1 ≤ run.length && run.length ≤ 5

/-- Models `re.findall(r'\b([A-Z]{1,5})\b', query)`
(src/orchestrator/app.py line 137).  Both ends of a match must sit on a
word boundary, so a match is exactly a maximal run of word characters
that consists solely of 1-5 uppercase letters: a longer all-caps run has
no boundary after its fifth letter, and a mixed run (`IBMCorp`, `ABC1`)
has a word character adjacent to every candidate span. -/
def potential_direct_tickers (query : String) : List String :=
  ((wordRuns query.toList []).filter isTickerRun).map (fun r => ⟨r⟩)

/-- The symbol-extraction block of `process_query`
(src/orchestrator/app.py lines 127-141): uppercase the query, add the
ticker of every company-name key occurring in it as a substring, add
every direct ticker-pattern match, deduplicate (`extracted_symbols` is a
Python `set`; sets are unordered, so the order of this list is a
modelling choice while membership and distinctness are faithful). -/
def extract_symbols (query : String) : List String :=
  let query_upper := toUpperStr query
  let fromNames :=
    (COMPANY_NAME_TO_SYMBOL_MAP.filter (fun p => strContains query_upper p.1)).map (·.2)
  (fromNames ++ potential_direct_tickers query).dedup

/-- The in-band error marker written into `market_data_results[symbol]`
when the market-data call for `symbol` raised
(src/orchestrator/app.py line 188). -/
def fetchErrorMarker (symbol : String) : JVal :=
  .obj [("error", .str ("Failed to fetch data for " ++ symbol))]

/-- The in-band error marker written into `market_data_results[symbol]`
when the call succeeded but the parsed body is not a dict
(src/orchestrator/app.py line 211). -/
def unexpectedTypeMarker : JVal :=
  .obj [("error", .str "Unexpected response type from API agent")]

/-- The default `analysis_results` value
(src/orchestrator/app.py line 214). -/
def noValidDataMarker : JVal :=
  .obj [("error", .str "No valid market data for analysis")]

/-- The per-symbol result loop of `process_query`
(src/orchestrator/app.py lines 184-211), building
`(market_data_results, valid_market_data_for_analysis)` from the
symbol/outcome pairs in launch order.  An awaited exception (modelled by
`Except.error`) yields the fetch-error marker; a dict body is stored
raw, and additionally enters the valid map as
`{"symbol": symbol, "info": body["info"]}` when the symbol is truthy and
`body.get("info")` is a dict; a non-dict body yields the
unexpected-type marker. -/
def buildMarketMaps :
    List (String × Except HTTPException JVal) →
      List (String × JVal) × List (String × JVal)
  | [] => ([], [])
  | (symbol, result) :: rest =>
    let (market, valid) := buildMarketMaps rest
    match result with
    | .error _ => ((symbol, fetchErrorMarker symbol) :: market, valid)
    | .ok (JVal.obj fields) =>
      match (JVal.obj fields).getField "info" with
      | some (JVal.obj infoFields) =>
        if symbol ≠ "" then
          ((symbol, JVal.obj fields) :: market,
           (symbol,
            JVal.obj [("symbol", JVal.str symbol), ("info", JVal.obj infoFields)]) :: valid)
        else
          ((symbol, JVal.obj fields) :: market, valid)
      | _ => ((symbol, JVal.obj fields) :: market, valid)
    | .ok _ => ((symbol, unexpectedTypeMarker) :: market, valid)

/-- The `market_data_results` entry produced for one symbol/outcome pair
(characterisation of one step of `buildMarketMaps`). -/
def marketEntry (symbol : String) (result : Except HTTPException JVal) : JVal :=
  match result with
  | .error _ => fetchErrorMarker symbol
  | .ok (JVal.obj fields) => JVal.obj fields
  | .ok _ => unexpectedTypeMarker

/-- The optional `valid_market_data_for_analysis` entry produced for one
symbol/outcome pair (characterisation of one step of
`buildMarketMaps`). -/
def validEntry (symbol : String) (result : Except HTTPException JVal) : Option JVal :=
  match result with
  | .ok (JVal.obj fields) =>
    match (JVal.obj fields).getField "info" with
    | some (JVal.obj infoFields) =>
      if symbol ≠ "" then
        some (JVal.obj [("symbol", JVal.str symbol), ("info", JVal.obj infoFields)])
      else
        none
    | _ => none
  | _ => none

/-- One `HttpOutcome` per collaborator call of a single request: what
the retrieval call, each symbol's market-data call, the analysis call
and the synthesis call would produce if issued. -/
structure Collaborators where
  retrieval : HttpOutcome
  market : String → HttpOutcome
  analysis : HttpOutcome
  synthesis : HttpOutcome

/-- The response model of the orchestrator
(src/orchestrator/app.py lines 42-46).  `market_data` is an association
list with one entry per fetched symbol in insertion order. -/
structure OrchestratorResponse where
  retrieved_context : JVal
  market_data : List (String × JVal)
  analysis_results : JVal
  final_narrative : JVal

/-- Which collaborator calls `process_query` issued: the symbols of the
market-data calls (the retrieval call is always issued and is not
recorded), and the payloads of the analysis and synthesis calls. -/
structure CallLog where
  market_calls : List String
  analysis_calls : List JVal
  synthesis_calls : List JVal

/-- The symbol/outcome pairs of the market-data fan-out: one call per
extracted symbol, each outcome paired with the symbol whose URL was
called (the `asyncio.gather` join returns outcomes in task order, and
the loop at line 184 indexes them by the same `symbols_to_fetch`
order). -/
def market_outcomes (query : String) (c : Collaborators) :
    List (String × Except HTTPException JVal) :=
  (extract_symbols query).map (fun s => (s, call_agent (c.market s)))

/-- The final `market_data_results` map of a request. -/
def market_data_results (query : String) (c : Collaborators) : List (String × JVal) :=
  (buildMarketMaps (market_outcomes query c)).1

/-- The final `valid_market_data_for_analysis` map of a request. -/
def valid_market_data_for_analysis (query : String) (c : Collaborators) :
    List (String × JVal) :=
  (buildMarketMaps (market_outcomes query c)).2

/-- Unwrapping of a successful retrieval payload
(src/orchestrator/app.py line 181):
`payload.get('results', [])` when the payload is a dict, else `[]`. -/
def retrieved_data_of (payload : JVal) : JVal :=
  match payload with
  | JVal.obj fields => (JVal.obj fields).getD "results" (JVal.arr [])
  | _ => JVal.arr []

/-- The analysis request payload (src/orchestrator/app.py lines
216-220): the valid subset and the fixed `total_aum` default. -/
def analysis_payload_of (valid : List (String × JVal)) : JVal :=
  JVal.obj [("market_data", JVal.obj valid), ("total_aum", JVal.num 1000000)]

/-- Step 3 of `process_query` (src/orchestrator/app.py lines 213-244):
returns the `analysis_results` value together with the payloads of the
analysis calls issued.  With an empty valid map the default marker
stands and no call is made; otherwise one call is made and a raised
`HTTPException` is downgraded to an in-band error marker. -/
def analysis_step (c : Collaborators) (valid : List (String × JVal)) :
    JVal × List JVal :=
  if valid.isEmpty then
    (noValidDataMarker, [])
  else
    let payload := analysis_payload_of valid
    match call_agent c.analysis with
    | .ok resp => (resp, [payload])
    | .error e =>
      (JVal.obj [("error", JVal.str ("Analysis agent failed: " ++ e.detail))], [payload])

/-- The synthesis request payload (src/orchestrator/app.py lines
247-252): the original query, the retrieved context, the analysis
results and the full market-data map, errors included. -/
def language_payload_of (query : String) (retrieved analysis : JVal)
    (market : List (String × JVal)) : JVal :=
  JVal.obj [("query", JVal.str query), ("retrieved_context", retrieved),
            ("analysis_results", analysis), ("market_data", JVal.obj market)]

/-- Python type name of a JSON value, as it appears in the
`AttributeError` raised by `.get` on a non-dict. -/
def pyTypeName : JVal → String
  | .null => "NoneType"
  | .bool _ => "bool"
  | .num _ => "int"
  | .str _ => "str"
  | .arr _ => "list"
  | .obj _ => "dict"

/-- Step 4 of `process_query` (src/orchestrator/app.py lines 253-271):
the `final_narrative` value.  On a dict response,
`response.get("narrative", "Error: No narrative content in response.")`;
on a non-dict response the `.get` attribute access raises an
`AttributeError`, caught by the generic handler; a raised
`HTTPException` is downgraded to an in-band error string. -/
def synthesis_step (c : Collaborators) : JVal :=
  match call_agent c.synthesis with
  | .ok (JVal.obj fields) =>
    (JVal.obj fields).getD "narrative" (JVal.str "Error: No narrative content in response.")
  | .ok other =>
    JVal.str ("Error: Unexpected error during language agent call: '"
      ++ pyTypeName other ++ "' object has no attribute 'get'")
  | .error e => JVal.str ("Error: Language agent failed: " ++ e.detail)

/-- Models `process_query` (src/orchestrator/app.py lines 61-279).  The
retrieval call and all market-data calls are launched together and
gathered with exceptions captured as values; if the retrieval outcome is
an exception, `HTTPException(500, "Failed to retrieve context.")` is
raised (the market-data calls were already launched, hence still appear
in the log).  Otherwise the per-symbol loop, the analysis step and the
synthesis step run, and the four aggregated fields are returned. -/
def process_query (query : String) (c : Collaborators) :
    Except HTTPException OrchestratorResponse × CallLog :=
  let symbols_to_fetch := extract_symbols query
  match call_agent c.retrieval with
  | .error _ =>
    (.error ⟨500, "Failed to retrieve context."⟩,
     { market_calls := symbols_to_fetch, analysis_calls := [], synthesis_calls := [] })
  | .ok retrievalPayload =>
    let retrieved_data := retrieved_data_of retrievalPayload
    let maps := buildMarketMaps (market_outcomes query c)
    let analysisPair := analysis_step c maps.2
    let language_payload := language_payload_of query retrieved_data analysisPair.1 maps.1
    let final_narrative := synthesis_step c
    (.ok { retrieved_context := retrieved_data,
           market_data := maps.1,
           analysis_results := analysisPair.1,
           final_narrative := final_narrative },
     { market_calls := symbols_to_fetch,
       analysis_calls := analysisPair.2,
       synthesis_calls := [language_payload] })

/-- Holds of a JSON value that is an object with an "error" field: the
shape of every in-band error marker the orchestrator produces. -/
def hasErrorKey (v : JVal) : Bool :=
  (v.getField "error").isSome

section Lemmas

theorem buildMarketMaps_cons (s : String) (r : Except HTTPException JVal)
    (rest : List (String × Except HTTPException JVal)) :
    buildMarketMaps ((s, r) :: rest) =
      ((s, marketEntry s r) :: (buildMarketMaps rest).1,
       match validEntry s r with
       | some v => (s, v) :: (buildMarketMaps rest).2
       | none => (buildMarketMaps rest).2) := by
  cases r with
  | error e => rfl
  | ok v =>
    cases v with
    | obj fields =>
      simp only [buildMarketMaps, marketEntry, validEntry]
      split
      · split <;> rfl
      · rfl
    | null => rfl
    | bool b => rfl
    | num n => rfl
    | str s => rfl
    | arr elems => rfl

theorem buildMarketMaps_fst (xs : List (String × Except HTTPException JVal)) :
    (buildMarketMaps xs).1 = xs.map (fun p => (p.1, marketEntry p.1 p.2)) := by
  induction xs with
  | nil => rfl
  | cons hd tl ih =>
    obtain ⟨s, r⟩ := hd
    rw [buildMarketMaps_cons]
    cases validEntry s r <;> simp [ih]

theorem buildMarketMaps_snd (xs : List (String × Except HTTPException JVal)) :
    (buildMarketMaps xs).2 =
      xs.filterMap (fun p => (validEntry p.1 p.2).map (fun v => (p.1, v))) := by
  induction xs with
  | nil => rfl
  | cons hd tl ih =>
    obtain ⟨s, r⟩ := hd
    rw [buildMarketMaps_cons]
    cases hv : validEntry s r <;> simp [ih, hv, List.filterMap_cons]

theorem lookup_map_self {β : Type} (f : String → β) (l : List String) (s : String)
    (hs : s ∈ l) :
    (l.map (fun a => (a, f a))).lookup s = some (f s) := by
  induction l with
  | nil => cases hs
  | cons a l ih =>
    by_cases h : s = a
    · subst h
      simp [List.lookup]
    · rcases List.mem_cons.mp hs with h' | h'
      · exact absurd h' h
      · simpa [List.lookup, beq_eq_false_iff_ne.mpr h] using ih h'

theorem market_data_results_eq (query : String) (c : Collaborators) :
    market_data_results query c =
      (extract_symbols query).map
        (fun s => (s, marketEntry s (call_agent (c.market s)))) := by
  simp [market_data_results, market_outcomes, buildMarketMaps_fst, List.map_map,
    Function.comp]

theorem valid_market_data_eq (query : String) (c : Collaborators) :
    valid_market_data_for_analysis query c =
      (extract_symbols query).filterMap
        (fun s => (validEntry s (call_agent (c.market s))).map (fun v => (s, v))) := by
  simp only [valid_market_data_for_analysis, market_outcomes, buildMarketMaps_snd,
    List.filterMap_map]
  rfl

theorem mem_extract_symbols (query s : String) :
    s ∈ extract_symbols query ↔
      (∃ name, (name, s) ∈ COMPANY_NAME_TO_SYMBOL_MAP ∧
        strContains (toUpperStr query) name = true)
      ∨ s ∈ potential_direct_tickers query := by
  simp only [extract_symbols, List.mem_dedup, List.mem_append, List.mem_map,
    List.mem_filter]
  constructor
  · rintro (⟨⟨name, sym⟩, ⟨hmem, hc⟩, rfl⟩ | ht)
    · exact Or.inl ⟨name, hmem, hc⟩
    · exact Or.inr ht
  · rintro (⟨name, hmem, hc⟩ | ht)
    · exact Or.inl ⟨(name, s), ⟨hmem, hc⟩, rfl⟩
    · exact Or.inr ht

theorem extract_symbols_nodup (query : String) : (extract_symbols query).Nodup :=
  List.nodup_dedup _

theorem map_values_ne_empty :
    ∀ p ∈ COMPANY_NAME_TO_SYMBOL_MAP, p.2 ≠ "" := by decide

theorem mem_potential_direct_tickers_ne_empty (query s : String)
    (h : s ∈ potential_direct_tickers query) : s ≠ "" := by
  simp only [potential_direct_tickers, List.mem_map, List.mem_filter] at h
  obtain ⟨run, ⟨-, hrun⟩, rfl⟩ := h
  simp only [isTickerRun, Bool.and_eq_true, decide_eq_true_eq] at hrun
  intro he
  have hdata : run = [] := congrArg String.data he
  rw [hdata] at hrun
  simp at hrun

theorem extract_symbols_ne_empty (query s : String) (h : s ∈ extract_symbols query) :
    s ≠ "" := by
  rcases (mem_extract_symbols query s).mp h with ⟨name, hmem, -⟩ | ht
  · exact map_values_ne_empty _ hmem
  · exact mem_potential_direct_tickers_ne_empty query s ht

theorem callFails_iff (o : HttpOutcome) :
    callFails o = true ↔ ∃ e, call_agent o = Except.error e := by
  unfold callFails
  cases call_agent o <;> simp

theorem callFails_eq_false_iff (o : HttpOutcome) :
    callFails o = false ↔ ∃ b, call_agent o = Except.ok b := by
  unfold callFails
  cases call_agent o <;> simp

theorem process_query_err (query : String) (c : Collaborators)
    (hr : callFails c.retrieval = true) :
    process_query query c =
      (Except.error ⟨500, "Failed to retrieve context."⟩,
       { market_calls := extract_symbols query, analysis_calls := [],
         synthesis_calls := [] }) := by
  obtain ⟨e, he⟩ := (callFails_iff c.retrieval).mp hr
  unfold process_query
  rw [he]

theorem process_query_ok (query : String) (c : Collaborators) (payload : JVal)
    (hr : call_agent c.retrieval = Except.ok payload) :
    process_query query c =
      (Except.ok
        { retrieved_context := retrieved_data_of payload,
          market_data := market_data_results query c,
          analysis_results := (analysis_step c (valid_market_data_for_analysis query c)).1,
          final_narrative := synthesis_step c },
       { market_calls := extract_symbols query,
         analysis_calls := (analysis_step c (valid_market_data_for_analysis query c)).2,
         synthesis_calls :=
           [language_payload_of query (retrieved_data_of payload)
             (analysis_step c (valid_market_data_for_analysis query c)).1
             (market_data_results query c)] }) := by
  unfold process_query
  rw [hr]
  rfl

theorem process_query_market_calls (query : String) (c : Collaborators) :
    (process_query query c).2.market_calls = extract_symbols query := by
  unfold process_query
  cases call_agent c.retrieval <;> rfl

theorem validEntry_ok_obj (s : String) (hs : s ≠ "") (fields : List (String × JVal)) :
    (validEntry s (Except.ok (JVal.obj fields))).isSome = true ↔
      ∃ infoFields, fields.lookup "info" = some (JVal.obj infoFields) := by
  unfold validEntry
  simp only [JVal.getField]
  cases h : fields.lookup "info" with
  | none => simp
  | some w => cases w <;> simp [hs]

theorem validEntry_isSome_ok (s : String) (r : Except HTTPException JVal)
    (h : (validEntry s r).isSome = true) : ∃ b, r = Except.ok b := by
  cases r with
  | ok b => exact ⟨b, rfl⟩
  | error e => simp [validEntry] at h

theorem mem_valid_keys_iff (query s : String) (c : Collaborators)
    (hs : s ∈ extract_symbols query) :
    s ∈ (valid_market_data_for_analysis query c).map Prod.fst ↔
      (validEntry s (call_agent (c.market s))).isSome = true := by
  rw [valid_market_data_eq]
  simp only [List.mem_map, List.mem_filterMap]
  constructor
  · rintro ⟨⟨s1, v⟩, ⟨a, ha, hg⟩, hfst⟩
    rw [Option.map_eq_some'] at hg
    obtain ⟨v0, hv0, hpair⟩ := hg
    obtain ⟨rfl, rfl⟩ := Prod.mk.injEq .. ▸ hpair
    subst hfst
    simp [hv0]
  · intro hsome
    obtain ⟨v0, hv0⟩ := Option.isSome_iff_exists.mp hsome
    exact ⟨(s, v0), ⟨s, hs, by rw [hv0]; rfl⟩, rfl⟩

theorem length_filterMap_eq_countP {α β : Type} (f : α → Option β) (l : List α) :
    (l.filterMap f).length = l.countP (fun a => (f a).isSome) := by
  induction l with
  | nil => rfl
  | cons a l ih =>
    cases h : f a <;>
      simp [List.filterMap_cons, h, List.countP_cons, ih]

theorem countP_not_add_countP {α : Type} (p : α → Bool) (l : List α) :
    l.countP (fun a => !p a) + l.countP p = l.length := by
  induction l with
  | nil => rfl
  | cons a l ih =>
    cases h : p a <;> simp [List.countP_cons, h] <;> omega

theorem countP_le_countP {α : Type} (p q : α → Bool) (l : List α)
    (himp : ∀ a ∈ l, p a = true → q a = true) : l.countP p ≤ l.countP q := by
  induction l with
  | nil => exact Nat.le_refl 0
  | cons a l ih =>
    have ih' := ih (fun a ha => himp a (List.mem_cons_of_mem _ ha))
    cases hp : p a
    · cases hq : q a <;> simp [List.countP_cons, hp, hq] <;> omega
    · have hq := himp a (List.mem_cons_self a l) hp
      simp only [List.countP_cons, hp, hq, if_true]
      omega

end Lemmas

/-- Concrete collaborator oracles: retrieval succeeds with an empty
result list, every market-data call succeeds with an `info` dict, the
analysis call succeeds, the synthesis call succeeds but its response has
no "narrative" field. -/
def collabNoNarrative : Collaborators :=
  { retrieval := .response 200 "" (JVal.obj [("results", JVal.arr [])]),
    market := fun _ =>
      .response 200 "" (JVal.obj [("info", JVal.obj [("sector", JVal.str "Technology")])]),
    analysis := .response 200 "" (JVal.obj [("risk_metrics", JVal.obj [])]),
    synthesis := .response 200 "" (JVal.obj [("status", JVal.str "done")]) }

section Claims

/-- C7, counterexample: the collaborator client does not return a tagged
outcome past its own boundary on a rejected HTTP status — it raises an
`HTTPException` (the `Except.error` branch models the raise at
src/orchestrator/app.py line 59), which the callers must catch or
gather. -/
theorem c7_counterexample :
    call_agent (HttpOutcome.response 404 "Not Found" JVal.null) =
      Except.error ⟨404, "Agent error: Not Found"⟩ := rfl

/-- C7, amended: the collaborator client classifies every call outcome
totally — a transport error is raised as `HTTPException(503, "Agent call
failed: " + cause)`, an HTTP status in [400,599] as
`HTTPException(status, "Agent error: " + body text)`, and any other
response returns the parsed body; the raised exceptions are captured as
values by the call sites (gather with `return_exceptions=True`, or
`try/except`), not returned as tagged values by the client itself. -/
theorem c7_call_agent_classification :
    (∀ cause, call_agent (HttpOutcome.transportError cause) =
        Except.error ⟨503, "Agent call failed: " ++ cause⟩)
    ∧ (∀ status text body, 400 ≤ status → status ≤ 599 →
        call_agent (HttpOutcome.response status text body) =
          Except.error ⟨status, "Agent error: " ++ text⟩)
    ∧ (∀ status text body, status < 400 ∨ 599 < status →
        call_agent (HttpOutcome.response status text body) = Except.ok body) := by
  refine ⟨fun cause => rfl, fun status text body h1 h2 => ?_, fun status text body h => ?_⟩
  · simp only [call_agent, if_pos (And.intro h1 h2)]
  · have hn : ¬(400 ≤ status ∧ status ≤ 599) := by omega
    simp only [call_agent, if_neg hn]

theorem c7_witness :
    call_agent (HttpOutcome.response 502 "Bad Gateway" JVal.null) =
        Except.error ⟨502, "Agent error: Bad Gateway"⟩
    ∧ call_agent (HttpOutcome.response 200 "ok" (JVal.obj [])) =
        Except.ok (JVal.obj []) :=
  ⟨c7_call_agent_classification.2.1 502 "Bad Gateway" JVal.null (by decide) (by decide),
   c7_call_agent_classification.2.2 200 "ok" (JVal.obj []) (Or.inl (by decide))⟩

/-- C9: when the synthesis call succeeds but its dict response has no
"narrative" key, the final narrative is the literal in-band error
string, and the request still returns a response rather than raising. -/
theorem c9_missing_narrative (query : String) (c : Collaborators)
    (payload : JVal) (hr : call_agent c.retrieval = Except.ok payload)
    (fields : List (String × JVal))
    (hs : call_agent c.synthesis = Except.ok (JVal.obj fields))
    (hn : fields.lookup "narrative" = none) :
    ∃ resp, (process_query query c).1 = Except.ok resp
      ∧ resp.final_narrative = JVal.str "Error: No narrative content in response." := by
  rw [process_query_ok query c payload hr]
  exact ⟨_, rfl, by simp [synthesis_step, hs, JVal.getD, JVal.getField, hn]⟩

theorem c9_witness :
    ∃ resp, (process_query "how are markets" collabNoNarrative).1 = Except.ok resp
      ∧ resp.final_narrative = JVal.str "Error: No narrative content in response." :=
  c9_missing_narrative "how are markets" collabNoNarrative
    (JVal.obj [("results", JVal.arr [])]) rfl
    [("status", JVal.str "done")] rfl rfl

/-- C10: company-name matching is substring containment on the
uppercased query, not word-level membership — whenever a key of the
static map occurs contiguously in the uppercased query text, its ticker
is extracted; in particular a query containing "battleship" picks up the
key "ATT" inside "BATTLESHIP" and yields ticker "T". -/
theorem c10_substring_matching :
    (∀ query name sym, (name, sym) ∈ COMPANY_NAME_TO_SYMBOL_MAP →
      strContains (toUpperStr query) name = true →
      sym ∈ extract_symbols query)
    ∧ strContains (toUpperStr "Is a battleship a good investment?") "ATT" = true
    ∧ "T" ∈ extract_symbols "Is a battleship a good investment?" := by
  refine ⟨fun query name sym hmem hsub =>
    (mem_extract_symbols query sym).mpr (Or.inl ⟨name, hmem, hsub⟩), by decide, by decide⟩

theorem c10_witness : "T" ∈ extract_symbols "my battleship" :=
  c10_substring_matching.1 "my battleship" "ATT" "T" (by decide) (by decide)

/-- C8: on a successful retrieval with a dict payload, the retrieved
context is the payload's "results" value passed through unchanged, both
in the returned response and inside the synthesis call's payload, and it
is the empty list when the payload has no "results" field. -/
theorem c8_results_roundtrip (query : String) (c : Collaborators)
    (fields : List (String × JVal))
    (hr : call_agent c.retrieval = Except.ok (JVal.obj fields)) :
    (∀ v, fields.lookup "results" = some v →
      ∃ resp, (process_query query c).1 = Except.ok resp
        ∧ resp.retrieved_context = v
        ∧ (process_query query c).2.synthesis_calls.map
            (fun p => p.getField "retrieved_context") = [some v])
    ∧ (fields.lookup "results" = none →
      ∃ resp, (process_query query c).1 = Except.ok resp
        ∧ resp.retrieved_context = JVal.arr []) := by
  rw [process_query_ok query c (JVal.obj fields) hr]
  constructor
  · intro v hv
    refine ⟨_, rfl, ?_, ?_⟩
    · simp [retrieved_data_of, JVal.getD, JVal.getField, hv]
    · simp [language_payload_of, JVal.getField, List.lookup, retrieved_data_of,
        JVal.getD, hv]
  · intro hnone
    exact ⟨_, rfl, by simp [retrieved_data_of, JVal.getD, JVal.getField, hnone]⟩

theorem c8_witness :
    ∃ resp,
      (process_query "how are markets" collabNoNarrative).1 = Except.ok resp
        ∧ resp.retrieved_context = JVal.arr [] :=
  ((c8_results_roundtrip "how are markets" collabNoNarrative
      [("results", JVal.arr [])] rfl).1 (JVal.arr []) rfl).elim
    (fun resp h => ⟨resp, h.1, h.2.1⟩)

/-- C1: a retrieval failure of any kind (transport error or rejected
HTTP status) is fatal — `process_query` raises
`HTTPException(500, "Failed to retrieve context.")` and no partial
response is returned; any other collaborator failure is recovered
locally: the request still returns a full response, a failed symbol's
entry is the in-band fetch-error marker while every symbol keeps an
entry, a failed analysis call leaves an error-marker object in
`analysis_results`, and a failed synthesis call leaves an
"Error: ..." string in `final_narrative`. -/
theorem c1_failure_propagation (query : String) (c : Collaborators) :
    (callFails c.retrieval = true →
      (process_query query c).1 =
        Except.error ⟨500, "Failed to retrieve context."⟩)
    ∧ (callFails c.retrieval = false →
      ∃ resp, (process_query query c).1 = Except.ok resp
        ∧ (∀ s ∈ extract_symbols query, callFails (c.market s) = true →
            resp.market_data.lookup s = some (fetchErrorMarker s))
        ∧ (∀ s ∈ extract_symbols query, resp.market_data.lookup s ≠ none)
        ∧ (callFails c.analysis = true →
            ∃ msg, resp.analysis_results = JVal.obj [("error", JVal.str msg)])
        ∧ (callFails c.synthesis = true →
            ∃ rest, resp.final_narrative = JVal.str ("Error: " ++ rest))) := by
  constructor
  · intro hr
    rw [process_query_err query c hr]
  · intro hr
    obtain ⟨payload, hp⟩ := (callFails_eq_false_iff c.retrieval).mp hr
    rw [process_query_ok query c payload hp]
    refine ⟨_, rfl, ?_, ?_, ?_, ?_⟩
    · intro s hs hf
      obtain ⟨e, he⟩ := (callFails_iff (c.market s)).mp hf
      rw [market_data_results_eq, lookup_map_self _ _ _ hs, he]
      rfl
    · intro s hs
      rw [market_data_results_eq, lookup_map_self _ _ _ hs]
      exact Option.some_ne_none _
    · intro hf
      obtain ⟨e, he⟩ := (callFails_iff c.analysis).mp hf
      unfold analysis_step
      split
      · exact ⟨"No valid market data for analysis", rfl⟩
      · rw [he]
        exact ⟨"Analysis agent failed: " ++ e.detail, rfl⟩
    · intro hf
      obtain ⟨e, he⟩ := (callFails_iff c.synthesis).mp hf
      unfold synthesis_step
      rw [he]
      exact ⟨"Language agent failed: " ++ e.detail, rfl⟩

/-- Collaborator oracles in which every call fails: retrieval by
transport error, market data by 404, analysis and synthesis by 500. -/
def collabAllFail : Collaborators :=
  { retrieval := .transportError "connection refused",
    market := fun _ => .response 404 "symbol not found" JVal.null,
    analysis := .response 500 "boom" JVal.null,
    synthesis := .transportError "timeout" }

/-- Collaborator oracles in which only retrieval succeeds. -/
def collabOnlyRetrievalOk : Collaborators :=
  { collabAllFail with
    retrieval := .response 200 ""
      (JVal.obj [("results",
        JVal.arr [JVal.obj [("id", JVal.num 1), ("text", JVal.str "doc"),
                            ("score", JVal.num 1)]])]) }

theorem c1_witness :
    ((process_query "TSM" collabAllFail).1 =
      Except.error ⟨500, "Failed to retrieve context."⟩)
    ∧ ∃ resp, (process_query "TSM" collabOnlyRetrievalOk).1 = Except.ok resp
        ∧ resp.market_data.lookup "TSM" = some (fetchErrorMarker "TSM") := by
  constructor
  · exact (c1_failure_propagation "TSM" collabAllFail).1 rfl
  · obtain ⟨resp, hresp, hmarket, -, -, -⟩ :=
      (c1_failure_propagation "TSM" collabOnlyRetrievalOk).2 rfl
    exact ⟨resp, hresp, hmarket "TSM" (by decide) rfl⟩

/-- C4: for every request that passes the retrieval step, the synthesis
collaborator is called exactly once, no matter how the analysis step
went, and its payload carries the original query text, the retrieved
context, the (possibly error-shaped) analysis results and the full
market-data map, error entries included; when the synthesis call fails,
`final_narrative` is an "Error: ..." string instead of a raise. -/
theorem c4_synthesis_once (query : String) (c : Collaborators) (payload : JVal)
    (hr : call_agent c.retrieval = Except.ok payload) :
    ∃ resp, (process_query query c).1 = Except.ok resp
      ∧ (process_query query c).2.synthesis_calls =
          [language_payload_of query resp.retrieved_context resp.analysis_results
            resp.market_data]
      ∧ (∀ p ∈ (process_query query c).2.synthesis_calls,
          p.getField "query" = some (JVal.str query)
          ∧ p.getField "retrieved_context" = some (retrieved_data_of payload)
          ∧ p.getField "analysis_results" = some resp.analysis_results
          ∧ p.getField "market_data" = some (JVal.obj (market_data_results query c)))
      ∧ (callFails c.synthesis = true →
          ∃ rest, resp.final_narrative = JVal.str ("Error: " ++ rest)) := by
  rw [process_query_ok query c payload hr]
  refine ⟨_, rfl, rfl, ?_, ?_⟩
  · intro p hp
    rw [List.mem_singleton] at hp
    subst hp
    refine ⟨rfl, rfl, rfl, rfl⟩
  · intro hf
    obtain ⟨e, he⟩ := (callFails_iff c.synthesis).mp hf
    unfold synthesis_step
    rw [he]
    exact ⟨"Language agent failed: " ++ e.detail, rfl⟩

theorem c4_witness :
    ∃ resp, (process_query "TSM" collabOnlyRetrievalOk).1 = Except.ok resp
      ∧ (process_query "TSM" collabOnlyRetrievalOk).2.synthesis_calls =
          [language_payload_of "TSM" resp.retrieved_context resp.analysis_results
            resp.market_data]
      ∧ ∃ rest, resp.final_narrative = JVal.str ("Error: " ++ rest) := by
  obtain ⟨resp, hresp, hcalls, -, hnarr⟩ :=
    c4_synthesis_once "TSM" collabOnlyRetrievalOk
      (JVal.obj [("results",
        JVal.arr [JVal.obj [("id", JVal.num 1), ("text", JVal.str "doc"),
                            ("score", JVal.num 1)]])]) rfl
  exact ⟨resp, hresp, hcalls, hnarr rfl⟩

/-- C5: when `valid_market_data_for_analysis` is empty the analysis
collaborator is never called and `analysis_results` is the fixed error
marker; when it is non-empty exactly one analysis call goes out, its
payload fixing `total_aum` at 1,000,000 and carrying the valid subset,
and a failure of that call is downgraded to an in-band error marker. -/
theorem c5_analysis_gating (query : String) (c : Collaborators) (payload : JVal)
    (hr : call_agent c.retrieval = Except.ok payload) :
    (valid_market_data_for_analysis query c = [] →
      (process_query query c).2.analysis_calls = []
      ∧ ∃ resp, (process_query query c).1 = Except.ok resp
          ∧ resp.analysis_results =
              JVal.obj [("error", JVal.str "No valid market data for analysis")])
    ∧ (valid_market_data_for_analysis query c ≠ [] →
      (process_query query c).2.analysis_calls =
        [analysis_payload_of (valid_market_data_for_analysis query c)]
      ∧ (∀ p ∈ (process_query query c).2.analysis_calls,
          p.getField "total_aum" = some (JVal.num 1000000)
          ∧ p.getField "market_data" =
              some (JVal.obj (valid_market_data_for_analysis query c)))
      ∧ (callFails c.analysis = true →
          ∃ resp msg, (process_query query c).1 = Except.ok resp
            ∧ resp.analysis_results = JVal.obj [("error", JVal.str msg)])) := by
  rw [process_query_ok query c payload hr]
  constructor
  · intro hempty
    unfold analysis_step
    rw [hempty]
    exact ⟨rfl, _, rfl, rfl⟩
  · intro hne
    have hni : (valid_market_data_for_analysis query c).isEmpty = false := by
      simpa [List.isEmpty_iff] using hne
    have hcalls : (analysis_step c (valid_market_data_for_analysis query c)).2 =
        [analysis_payload_of (valid_market_data_for_analysis query c)] := by
      simp only [analysis_step, hni, Bool.false_eq_true, if_false]
      cases call_agent c.analysis <;> rfl
    refine ⟨hcalls, ?_, ?_⟩
    · intro p hp
      rw [hcalls, List.mem_singleton] at hp
      subst hp
      exact ⟨rfl, rfl⟩
    · intro hf
      obtain ⟨e, he⟩ := (callFails_iff c.analysis).mp hf
      refine ⟨_, "Analysis agent failed: " ++ e.detail, rfl, ?_⟩
      simp only [analysis_step, hni, Bool.false_eq_true, if_false, he]

theorem c5_witness :
    ((process_query "hello there" collabOnlyRetrievalOk).2.analysis_calls = []
      ∧ ∃ resp,
          (process_query "hello there" collabOnlyRetrievalOk).1 = Except.ok resp
          ∧ resp.analysis_results =
              JVal.obj [("error", JVal.str "No valid market data for analysis")])
    ∧ ((process_query "TSM" collabNoNarrative).2.analysis_calls =
        [analysis_payload_of (valid_market_data_for_analysis "TSM" collabNoNarrative)]) := by
  constructor
  · exact (c5_analysis_gating "hello there" collabOnlyRetrievalOk
      (JVal.obj [("results",
        JVal.arr [JVal.obj [("id", JVal.num 1), ("text", JVal.str "doc"),
                            ("score", JVal.num 1)]])]) rfl).1 rfl
  · exact ((c5_analysis_gating "TSM" collabNoNarrative
      (JVal.obj [("results", JVal.arr [])]) rfl).2
      (fun h => absurd (congrArg List.length h) (by decide))).1

/-- C6: extraction is the deduplicated union of the tickers of map keys
contained in the uppercased query and of the 1-5 letter all-caps tokens
of the original-case text; "What about Apple and XYZ?" yields exactly
AAPL and XYZ; and with no company-name match and no all-caps token the
symbol set is empty and no market-data call is issued. -/
theorem c6_symbol_extraction :
    extract_symbols "What about Apple and XYZ?" = ["AAPL", "XYZ"]
    ∧ (∀ query, (extract_symbols query).Nodup)
    ∧ (∀ query s, s ∈ extract_symbols query ↔
        (∃ name, (name, s) ∈ COMPANY_NAME_TO_SYMBOL_MAP ∧
          strContains (toUpperStr query) name = true)
        ∨ s ∈ potential_direct_tickers query)
    ∧ (∀ query (c : Collaborators),
        (∀ name sym, (name, sym) ∈ COMPANY_NAME_TO_SYMBOL_MAP →
          strContains (toUpperStr query) name = false) →
        potential_direct_tickers query = [] →
        extract_symbols query = []
        ∧ (process_query query c).2.market_calls = []) := by
  refine ⟨by decide, extract_symbols_nodup, mem_extract_symbols, ?_⟩
  intro query c hnames hticks
  have hempty : extract_symbols query = [] := by
    rw [List.eq_nil_iff_forall_not_mem]
    intro s hs
    rcases (mem_extract_symbols query s).mp hs with ⟨name, hmem, hc⟩ | ht
    · exact Bool.false_ne_true ((hnames name s hmem).symm.trans hc)
    · rw [hticks] at ht
      exact (List.not_mem_nil s) ht
  exact ⟨hempty, by rw [process_query_market_calls, hempty]⟩

theorem c6_witness :
    extract_symbols "how is the market today?" = []
    ∧ (process_query "how is the market today?" collabAllFail).2.market_calls = [] :=
  c6_symbol_extraction.2.2.2 "how is the market today?" collabAllFail
    (fun name sym hmem => by
      have h : ∀ p ∈ COMPANY_NAME_TO_SYMBOL_MAP,
          strContains (toUpperStr "how is the market today?") p.1 = false := by decide
      exact h (name, sym) hmem)
    (by decide)

/-- Oracles for the C3 counterexample: every market-data payload carries
an *empty* `info` dict. -/
def collabEmptyInfo : Collaborators :=
  { retrieval := .response 200 "" (JVal.obj [("results", JVal.arr [])]),
    market := fun _ => .response 200 "" (JVal.obj [("info", JVal.obj [])]),
    analysis := .response 200 "" (JVal.obj [("risk_metrics", JVal.obj [])]),
    synthesis := .response 200 "" (JVal.obj [("narrative", JVal.str "ok")]) }

/-- C3, counterexample: a successful market-data payload whose "info"
mapping is *empty* is nevertheless added to
`valid_market_data_for_analysis` (the code tests `isinstance(..., dict)`
only, src/orchestrator/app.py line 201), and the analysis call is then
issued — contradicting the claim that a symbol enters the analysis input
only with a non-empty info mapping. -/
theorem c3_counterexample :
    call_agent (collabEmptyInfo.market "TSM") =
      Except.ok (JVal.obj [("info", JVal.obj [])])
    ∧ valid_market_data_for_analysis "TSM" collabEmptyInfo =
        [("TSM", JVal.obj [("symbol", JVal.str "TSM"), ("info", JVal.obj [])])]
    ∧ (process_query "TSM" collabEmptyInfo).2.analysis_calls.length = 1 :=
  ⟨rfl, rfl, rfl⟩

/-- C3, amended: a symbol whose market-data call succeeds with a dict
payload is added to `valid_market_data_for_analysis` exactly when the
payload's "info" field is a dict (possibly empty); either way the raw
payload is recorded in `market_data_results`, so a payload without an
"info" dict is displayed but excluded from the analysis input. -/
theorem c3_info_dict_gate (query s : String) (c : Collaborators)
    (hs : s ∈ extract_symbols query) (fields : List (String × JVal))
    (hok : call_agent (c.market s) = Except.ok (JVal.obj fields)) :
    (market_data_results query c).lookup s = some (JVal.obj fields)
    ∧ (s ∈ (valid_market_data_for_analysis query c).map Prod.fst ↔
        ∃ infoFields, fields.lookup "info" = some (JVal.obj infoFields)) := by
  refine ⟨?_, ?_⟩
  · rw [market_data_results_eq, lookup_map_self _ _ _ hs, hok]
    rfl
  · rw [mem_valid_keys_iff query s c hs, hok]
    exact validEntry_ok_obj s (extract_symbols_ne_empty query s hs) fields

theorem c3_witness :
    (market_data_results "TSM" collabNoNarrative).lookup "TSM" =
        some (JVal.obj [("info", JVal.obj [("sector", JVal.str "Technology")])])
    ∧ ("TSM" ∈ (valid_market_data_for_analysis "TSM" collabNoNarrative).map Prod.fst ↔
        ∃ infoFields,
          [("info", JVal.obj [("sector", JVal.str "Technology")])].lookup "info" =
            some (JVal.obj infoFields)) :=
  c3_info_dict_gate "TSM" "TSM" collabNoNarrative (by decide) _ rfl

/-- Oracles for the C2 counterexample: the TSM call is rejected with a
404 while the AAPL call succeeds with a JSON string body. -/
def collabOneFailOneString : Collaborators :=
  { retrieval := .response 200 "" (JVal.obj [("results", JVal.arr [])]),
    market := fun s =>
      if s = "TSM" then .response 404 "Not Found" JVal.null
      else .response 200 "" (JVal.str "oops"),
    analysis := .response 200 "" (JVal.obj []),
    synthesis := .response 200 "" (JVal.obj [("narrative", JVal.str "ok")]) }

/-- C2, counterexample: with two extracted symbols of which exactly one
call fails, `market_data_results` can still hold *two* error-marked
entries, because a succeeding call whose parsed body is not a dict is
also replaced by an error marker (src/orchestrator/app.py line 211)
instead of the raw payload the claim promises on success. -/
theorem c2_counterexample :
    extract_symbols "TSM AAPL" = ["TSM", "AAPL"]
    ∧ (extract_symbols "TSM AAPL").countP
        (fun s => callFails (collabOneFailOneString.market s)) = 1
    ∧ callFails (collabOneFailOneString.market "AAPL") = false
    ∧ (market_data_results "TSM AAPL" collabOneFailOneString).countP
        (fun p => hasErrorKey p.2) = 2
    ∧ (market_data_results "TSM AAPL" collabOneFailOneString).lookup "AAPL" =
        some unexpectedTypeMarker :=
  ⟨by decide, by decide, by decide, by decide, rfl⟩

/-- C2, amended: the final market map always has exactly one entry per
extracted symbol, in a fixed association with that symbol's own outcome;
and when exactly one of the N calls fails while every succeeding call
returns a dict payload, the map has N entries of which precisely the
failing symbol's is the error marker, every other entry being that
symbol's raw payload, and the valid-for-analysis map has at most N-1
entries. -/
theorem c2_market_map_invariants (query : String) (c : Collaborators) :
    ((market_data_results query c).map Prod.fst = extract_symbols query
      ∧ (extract_symbols query).Nodup
      ∧ (∀ s ∈ extract_symbols query,
          (market_data_results query c).lookup s =
            some (marketEntry s (call_agent (c.market s)))))
    ∧ ((extract_symbols query).countP (fun s => callFails (c.market s)) = 1 →
       (∀ s ∈ extract_symbols query, ∀ b, call_agent (c.market s) = Except.ok b →
          ∃ fields, b = JVal.obj fields) →
       (market_data_results query c).length = (extract_symbols query).length
       ∧ (∃ s0, s0 ∈ extract_symbols query
            ∧ callFails (c.market s0) = true
            ∧ (market_data_results query c).lookup s0 = some (fetchErrorMarker s0)
            ∧ (∀ s ∈ extract_symbols query, s ≠ s0 →
                ∃ fields, call_agent (c.market s) = Except.ok (JVal.obj fields)
                  ∧ (market_data_results query c).lookup s = some (JVal.obj fields)))
       ∧ (valid_market_data_for_analysis query c).length <
           (extract_symbols query).length) := by
  constructor
  · refine ⟨?_, extract_symbols_nodup query, ?_⟩
    · have hcomp : (Prod.fst ∘ fun s => (s, marketEntry s (call_agent (c.market s))))
          = id := by
        funext s
        rfl
      rw [market_data_results_eq, List.map_map, hcomp, List.map_id]
    · intro s hs
      rw [market_data_results_eq, lookup_map_self _ _ _ hs]
  · intro hcount hbody
    have hfl := hcount
    rw [List.countP_eq_length_filter] at hfl
    obtain ⟨s0, hs0⟩ := List.length_eq_one.mp hfl
    have hmemf : s0 ∈ (extract_symbols query).filter
        (fun s => callFails (c.market s)) := by
      rw [hs0]
      exact List.mem_singleton_self s0
    rw [List.mem_filter] at hmemf
    obtain ⟨hs0mem, hs0fail⟩ := hmemf
    have honly : ∀ s ∈ extract_symbols query, s ≠ s0 →
        callFails (c.market s) = false := by
      intro s hs hne
      cases h : callFails (c.market s)
      · rfl
      · have hmem2 : s ∈ (extract_symbols query).filter
            (fun s => callFails (c.market s)) :=
          List.mem_filter.mpr ⟨hs, h⟩
        rw [hs0] at hmem2
        exact absurd (List.mem_singleton.mp hmem2) hne
    refine ⟨?_, ⟨s0, hs0mem, hs0fail, ?_, ?_⟩, ?_⟩
    · rw [market_data_results_eq, List.length_map]
    · obtain ⟨e, he⟩ := (callFails_iff (c.market s0)).mp hs0fail
      rw [market_data_results_eq, lookup_map_self _ _ _ hs0mem, he]
      rfl
    · intro s hs hne
      obtain ⟨b, hb⟩ := (callFails_eq_false_iff (c.market s)).mp (honly s hs hne)
      obtain ⟨fields, rfl⟩ := hbody s hs b hb
      refine ⟨fields, hb, ?_⟩
      rw [market_data_results_eq, lookup_map_self _ _ _ hs, hb]
      rfl
    · have hlen : (valid_market_data_for_analysis query c).length =
          (extract_symbols query).countP
            (fun s => ((validEntry s (call_agent (c.market s))).map
              (fun v => (s, v))).isSome) := by
        rw [valid_market_data_eq, length_filterMap_eq_countP]
      have hle : (extract_symbols query).countP
            (fun s => ((validEntry s (call_agent (c.market s))).map
              (fun v => (s, v))).isSome)
          ≤ (extract_symbols query).countP (fun s => !callFails (c.market s)) := by
        refine countP_le_countP _ _ _ ?_
        intro s hs hsome
        have hsome' : (validEntry s (call_agent (c.market s))).isSome = true := by
          cases h : validEntry s (call_agent (c.market s)) <;>
            simp [h] at hsome ⊢
        obtain ⟨b, hb⟩ := validEntry_isSome_ok s _ hsome'
        have hf : callFails (c.market s) = false :=
          (callFails_eq_false_iff _).mpr ⟨b, hb⟩
        rw [hf]
        rfl
      have hadd : (extract_symbols query).countP (fun s => !callFails (c.market s))
            + (extract_symbols query).countP (fun s => callFails (c.market s))
          = (extract_symbols query).length :=
        countP_not_add_countP _ _
      omega

/-- Oracles for the C2 witness: the TSM call is rejected with a 404
while every other call succeeds with a dict payload. -/
def collabOneFailOneDict : Collaborators :=
  { retrieval := .response 200 "" (JVal.obj [("results", JVal.arr [])]),
    market := fun s =>
      if s = "TSM" then .response 404 "Not Found" JVal.null
      else .response 200 "" (JVal.obj [("info", JVal.obj [("sector", JVal.str "Tech")])]),
    analysis := .response 200 "" (JVal.obj []),
    synthesis := .response 200 "" (JVal.obj [("narrative", JVal.str "ok")]) }

theorem c2_witness :
    (market_data_results "TSM AAPL" collabOneFailOneDict).length =
        (extract_symbols "TSM AAPL").length
    ∧ (valid_market_data_for_analysis "TSM AAPL" collabOneFailOneDict).length <
        (extract_symbols "TSM AAPL").length := by
  have hbody : ∀ s ∈ extract_symbols "TSM AAPL", ∀ b,
      call_agent (collabOneFailOneDict.market s) = Except.ok b →
      ∃ fields, b = JVal.obj fields := by
    intro s hs b hb
    have he : extract_symbols "TSM AAPL" = ["TSM", "AAPL"] := by decide
    rw [he, List.mem_cons, List.mem_singleton] at hs
    rcases hs with rfl | rfl
    · exact absurd hb (by simp [collabOneFailOneDict, call_agent])
    · rw [show call_agent (collabOneFailOneDict.market "AAPL") =
          Except.ok (JVal.obj [("info", JVal.obj [("sector", JVal.str "Tech")])])
          from rfl] at hb
      injection hb with h
      exact ⟨_, h.symm⟩
  obtain ⟨hlen, -, hvalid⟩ :=
    (c2_market_map_invariants "TSM AAPL" collabOneFailOneDict).2 (by decide) hbody
  exact ⟨hlen, hvalid⟩

end Claims

end Orchestrator
